import Mathlib

/-!
Shallow embedding of the table-tennis simulation core (physics trajectory
simulator, bounce model, execution-quality model, arrival analysis, velocity
solver, RNG, and the spin-read pipeline), together with theorems settling the
spec claims about it.

Modelling conventions:
* JavaScript numbers are modelled as exact rationals (`ℚ`).  The transcendental
  float primitives `Math.sqrt`, `Math.log` and the constant `Math.PI` are pure,
  deterministic functions of their argument; they are modelled abstractly by a
  `FloatPrims` record of rational functions, and every theorem quantifies over
  (or instantiates) such a record.  No claim below depends on the numeric
  values of these primitives beyond explicitly stated facts.
* 32-bit integer operations of the RNG (`Math.imul`, `>>>`, `<<`, `^`, `|0`)
  are modelled exactly on `ℕ` reduced mod 2^32 (the JS results coincide with
  the unsigned bit patterns used here).
* The Box–Muller rejection loop of `gaussian` is unbounded in the source; it
  is modelled with an explicit fuel parameter.  All theorems hold for every
  fuel value.
* Mutable state (the RNG stream, the flight-loop state) is threaded
  explicitly; fallible behaviour does not occur in the embedded fragment.
-/

namespace TT

/-- Abstract model of the deterministic JS float primitives used by the code:
`Math.sqrt`, `Math.log` and `Math.PI`. -/
structure FloatPrims where
  sqrt : ℚ → ℚ
  log : ℚ → ℚ
  pi : ℚ

-- ---------------------------------------------------------------------------
-- Seedable RNG: splitmix32-seeded xoshiro128** with Box–Muller gaussian
-- (source: rng.ts, `createRng`)
-- ---------------------------------------------------------------------------

/-- Reduce to an unsigned 32-bit value. -/
def u32 (n : ℕ) : ℕ := n % 4294967296

/-- 32-bit xor. -/
def u32xor (a b : ℕ) : ℕ := Nat.xor a b

/-- JS `x << k` on a 32-bit lane (bit pattern, unsigned view). -/
def shl32 (x k : ℕ) : ℕ := u32 (x * 2 ^ k)

/-- JS `x >>> k` (logical shift right). -/
def shr32 (x k : ℕ) : ℕ := x / 2 ^ k

/-- JS `Math.imul` bit pattern (unsigned view). -/
def imul32 (a b : ℕ) : ℕ := u32 (a * b)

/-- JS `rotl(x, k) = (x << k) | (x >>> (32 - k))` from rng.ts. -/
def rotl (x k : ℕ) : ℕ := Nat.lor (shl32 x k) (shr32 x (32 - k))

/-- One call of the `splitmix32(seed)` closure from rng.ts: returns the new
captured `seed` together with the 32-bit value `t` whose scaled form
`(t >>> 0) / 4294967296` the closure returns. -/
def splitmixStep (seed : ℕ) : ℕ × ℕ :=
  let seed := u32 (seed + 0x9e3779b9)
  let t := u32xor seed (shr32 seed 16)
  let t := imul32 t 0x21f0aaad
  let t := u32xor t (shr32 t 15)
  let t := imul32 t 0x735a2d97
  let t := u32xor t (shr32 t 15)
  (seed, t)

/-- State of the RNG returned by `createRng`: the four xoshiro128** words plus
the cached Box–Muller spare value. -/
structure RngState where
  s0 : ℕ
  s1 : ℕ
  s2 : ℕ
  s3 : ℕ
  hasSpare : Bool
  spare : ℚ
deriving DecidableEq

/-- The `createRng(seed)` initialisation: four splitmix32 outputs seed the
xoshiro state (in the source each state word is `(sm() * 4294967296) >>> 0`,
which recovers exactly the 32-bit splitmix output).  The JS `seed |= 0`
coercion of the integer seed corresponds to taking the argument mod 2^32. -/
def createRng (seed : ℤ) : RngState :=
  let s := (seed % 4294967296).toNat
  let p0 := splitmixStep s
  let p1 := splitmixStep p0.1
  let p2 := splitmixStep p1.1
  let p3 := splitmixStep p2.1
  ⟨p0.2, p1.2, p2.2, p3.2, false, 0⟩

/-- The xoshiro128** output of `next()` before state advance,
`(imul(rotl(imul(s1, 5), 7), 9) >>> 0) / 4294967296`. -/
def rngNextOut (st : RngState) : ℚ :=
  (imul32 (rotl (imul32 st.s1 5) 7) 9 : ℚ) / 4294967296

/-- The xoshiro128** state advance performed by `next()`. -/
def rngNextState (st : RngState) : RngState :=
  let t := shl32 st.s1 9
  let s2 := u32xor st.s2 st.s0
  let s3 := u32xor st.s3 st.s1
  let s1 := u32xor st.s1 s2
  let s0 := u32xor st.s0 s3
  let s2 := u32xor s2 t
  let s3 := rotl s3 11
  ⟨s0, s1, s2, s3, st.hasSpare, st.spare⟩

/-- The RNG method `next()`: a uniform value in [0,1) and the advanced state. -/
def rngNext (st : RngState) : ℚ × RngState :=
  (rngNextOut st, rngNextState st)

/-- The Box–Muller rejection loop of `gaussian`: draw `u, v` from two `next()`
calls, accept when `0 < u² + v² < 1`.  The source loop is unbounded; fuel
makes it total (on exhaustion it yields the dummy accepted triple
`(0, 0, 1/2)`, a case no theorem below relies on). -/
def gaussianLoop : ℕ → RngState → (ℚ × ℚ × ℚ) × RngState
  | 0, st => ((0, 0, 1/2), st)
  | n + 1, st =>
    let p1 := rngNext st
    let u := p1.1 * 2 - 1
    let p2 := rngNext p1.2
    let v := p2.1 * 2 - 1
    let s := u * u + v * v
    if 1 ≤ s ∨ s = 0 then gaussianLoop n p2.2 else ((u, v, s), p2.2)

/-- The RNG method `gaussian(mean, stddev)`: consumes the cached spare if
present, otherwise runs the rejection loop and caches the second value. -/
def gaussian (pr : FloatPrims) (fuel : ℕ) (mean stddev : ℚ) (st : RngState) :
    ℚ × RngState :=
  if st.hasSpare then
    (mean + stddev * st.spare, { st with hasSpare := false })
  else
    let r := gaussianLoop fuel st
    let u := r.1.1
    let v := r.1.2.1
    let s := r.1.2.2
    let mul := pr.sqrt ((-2) * pr.log s / s)
    (mean + stddev * u * mul, { r.2 with hasSpare := true, spare := v * mul })

/-- A call made against the RNG interface: `next()` or `gaussian(mean, stddev)`. -/
inductive RngCall where
  | unif : RngCall
  | gauss (mean stddev : ℚ) : RngCall
deriving DecidableEq

/-- Run an ordered list of RNG calls against a source, collecting the outputs. -/
def runRng (pr : FloatPrims) (fuel : ℕ) : RngState → List RngCall → List ℚ
  | _, [] => []
  | st, RngCall.unif :: cs =>
    let p := rngNext st
    p.1 :: runRng pr fuel p.2 cs
  | st, RngCall.gauss m sd :: cs =>
    let p := gaussian pr fuel m sd st
    p.1 :: runRng pr fuel p.2 cs

-- ---------------------------------------------------------------------------
-- Vector math (source: vec-math.ts)
-- ---------------------------------------------------------------------------

/-- A 3-component vector of JS numbers. -/
structure Vec3 where
  x : ℚ
  y : ℚ
  z : ℚ
deriving DecidableEq

/-- A 2-component vector of JS numbers. -/
structure Vec2 where
  x : ℚ
  y : ℚ
deriving DecidableEq

def v3add (a b : Vec3) : Vec3 := ⟨a.x + b.x, a.y + b.y, a.z + b.z⟩

def v3sub (a b : Vec3) : Vec3 := ⟨a.x - b.x, a.y - b.y, a.z - b.z⟩

def v3scale (v : Vec3) (s : ℚ) : Vec3 := ⟨v.x * s, v.y * s, v.z * s⟩

def v3cross (a b : Vec3) : Vec3 :=
  ⟨a.y * b.z - a.z * b.y, a.z * b.x - a.x * b.z, a.x * b.y - a.y * b.x⟩

/-- `v3mag` uses `Math.sqrt`, modelled through the primitives record. -/
def v3mag (pr : FloatPrims) (v : Vec3) : ℚ :=
  pr.sqrt (v.x * v.x + v.y * v.y + v.z * v.z)

def v2sub (a b : Vec2) : Vec2 := ⟨a.x - b.x, a.y - b.y⟩

def v2mag (pr : FloatPrims) (v : Vec2) : ℚ := pr.sqrt (v.x * v.x + v.y * v.y)

def v2dist (pr : FloatPrims) (a b : Vec2) : ℚ := v2mag pr (v2sub a b)

/-- The shared helper `clamp(v, min, max) = Math.max(min, Math.min(max, v))`. -/
def clamp (v lo hi : ℚ) : ℚ := max lo (min hi v)

/-- JS `Math.sign` (the embedded code only applies it to finite numbers). -/
def signQ (q : ℚ) : ℚ := if 0 < q then 1 else if q < 0 then -1 else 0

-- ---------------------------------------------------------------------------
-- Physics configuration (source: physics/constants.ts), restricted to the
-- fields read by the embedded functions
-- ---------------------------------------------------------------------------

/-- The physics configuration fields consumed by the embedded physics code
(`PhysicsConfig` in constants.ts, omitting fields only read by functions that
are outside the embedded fragment). -/
structure PhysicsConfig where
  tableLength : ℚ
  tableWidth : ℚ
  netHeight : ℚ
  ballMass : ℚ
  ballDiameter : ℚ
  airDensity : ℚ
  dragCoefficient : ℚ
  magnusCoefficient : ℚ
  gravity : ℚ
  restitution : ℚ
  surfaceFriction : ℚ
  positionWeight : ℚ
  timePressureWeight : ℚ
  riskWeight : ℚ
  maxRecoverySpeed : ℚ
  comfortableTime : ℚ
  timestep : ℚ
  maxFlightTime : ℚ
  netContactMargin : ℚ
  edgeContactMargin : ℚ
  netClipRetentionX : ℚ
  netClipRetentionY : ℚ
  netClipRetentionZ : ℚ
  edgeDeflectionStddevX : ℚ
  edgeDeflectionStddevY : ℚ
  edgeDeflectionMinZRetention : ℚ
deriving DecidableEq

/-- The default values of those fields (`DEFAULT_PHYSICS_CONFIG`). -/
def DEFAULT_PHYSICS_CONFIG : PhysicsConfig where
  tableLength := 274
  tableWidth := 152.5
  netHeight := 15.25
  ballMass := 2.7
  ballDiameter := 4.0
  airDensity := 0.001225
  dragCoefficient := 0.4
  magnusCoefficient := 0.6
  gravity := 981
  restitution := 0.93
  surfaceFriction := 0.25
  positionWeight := 0.6
  timePressureWeight := 0.4
  riskWeight := 0.5
  maxRecoverySpeed := 500
  comfortableTime := 0.4
  timestep := 0.002
  maxFlightTime := 3.0
  netContactMargin := 1.0
  edgeContactMargin := 1.0
  netClipRetentionX := 0.7
  netClipRetentionY := 0.5
  netClipRetentionZ := 0.3
  edgeDeflectionStddevX := 30
  edgeDeflectionStddevY := 20
  edgeDeflectionMinZRetention := 0.5

-- ---------------------------------------------------------------------------
-- Bounce model (source: physics/bounce.ts, `applyBounce`)
-- ---------------------------------------------------------------------------

/-- Result of a table bounce. -/
structure BounceResult where
  velocity : Vec3
  spin : Vec3
deriving DecidableEq

/-- Table bounce physics (`applyBounce`): vertical velocity reversed and
scaled by restitution; friction at the contact point converts spin to
horizontal velocity (`Δvx = +ωy·friction`, `Δvy = -ωx·friction`); spin
attenuated uniformly to `(1 - friction)` of its incoming value.  Pure: no RNG
is consumed. -/
def applyBounce (velocity spin : Vec3) (config : PhysicsConfig) : BounceResult :=
  let vz := -velocity.z * config.restitution
  let vx := velocity.x + spin.y * config.surfaceFriction
  let vy := velocity.y - spin.x * config.surfaceFriction
  let spinRetention := 1 - config.surfaceFriction
  ⟨⟨vx, vy, vz⟩,
   ⟨spin.x * spinRetention, spin.y * spinRetention, spin.z * spinRetention⟩⟩

-- ---------------------------------------------------------------------------
-- Trajectory simulator (source: trajectory.ts, `simulateFlight`)
-- ---------------------------------------------------------------------------

/-- Output record of one simulated flight segment (`TrajectoryResult`). -/
structure TrajectoryResult where
  apex : Vec3
  landingPosition : Vec3
  landingVelocity : Vec3
  landingSpin : Vec3
  netContact : Bool
  edgeContact : Bool
  crossedNet : Bool
  landsOnTable : Bool
  flightTime : ℚ
deriving DecidableEq

/-- Mutable state carried by the integration loop of `simulateFlight`. -/
structure FlightState where
  pos : Vec3
  vel : Vec3
  spn : Vec3
  apex : Vec3
  netContact : Bool
  edgeContact : Bool
  crossedNet : Bool
  time : ℚ
  rng : RngState
deriving DecidableEq

/-- Per-step acceleration: gravity + air drag + Magnus force, exactly as in
the loop body of `simulateFlight` (the drag and Magnus prefactors are
loop-invariant in the source and recomputed here). -/
def flightAccel (pr : FloatPrims) (cfg : PhysicsConfig) (vel spn : Vec3) : Vec3 :=
  let ballRadius := cfg.ballDiameter / 2
  let ballArea := pr.pi * ballRadius * ballRadius
  let dragFactor := 1/2 * cfg.airDensity * cfg.dragCoefficient * ballArea
  let magnusFactor := cfg.magnusCoefficient * cfg.airDensity * ballArea
  let gravity : Vec3 := ⟨0, 0, -cfg.gravity⟩
  let speed := v3mag pr vel
  let drag := if speed > 0 then v3scale vel (-dragFactor * speed / cfg.ballMass)
    else (⟨0, 0, 0⟩ : Vec3)
  let spinRad := v3scale spn (2 * pr.pi)
  let magnus := v3scale (v3cross spinRad vel) (magnusFactor / cfg.ballMass)
  v3add (v3add gravity drag) magnus

/-- Interpolation parameter of the Y=0 crossing,
`t = |pos.y| / (|pos.y| + |newPos.y|)`. -/
def netCrossT (posY newPosY : ℚ) : ℚ := |posY| / (|posY| + |newPosY|)

/-- Interpolated height at which the ball crosses the net plane Y=0. -/
def netCrossZ (pos newPos : Vec3) : ℚ :=
  pos.z + (newPos.z - pos.z) * netCrossT pos.y newPos.y

/-- Interpolated X coordinate at which the ball crosses the net plane Y=0. -/
def netCrossX (pos newPos : Vec3) : ℚ :=
  pos.x + (newPos.x - pos.x) * netCrossT pos.y newPos.y

/-- Outcome of the net-crossing section of one integration step: either the
flight ends (terminal return from `simulateFlight`), or it proceeds into the
landing check with possibly modified velocity and contact flags. -/
inductive NetStep where
  | finished (r : TrajectoryResult)
  | proceed (vel : Vec3) (netContact crossedNet : Bool)
deriving DecidableEq

/-- The net-crossing event handling of the `simulateFlight` loop body: when
the ball has not yet crossed and the sign of the new Y position differs from
the starting side (and is nonzero), the Y=0 crossing height is interpolated
and dispatched on: at or below table level → terminal net fault; below net
height but within the contact margin → net clip (velocity scaled per axis,
flags set, flight proceeds); below net height otherwise → terminal into-net;
at or above net height → clean crossing. -/
def netPhase (cfg : PhysicsConfig) (startSide : ℚ) (pos newPos vel spn apex : Vec3)
    (netContact crossedNet : Bool) (time : ℚ) : NetStep :=
  if crossedNet = false ∧ signQ newPos.y ≠ startSide ∧ signQ newPos.y ≠ 0 then
    let netZ := netCrossZ pos newPos
    if netZ ≤ 0 then
      NetStep.finished ⟨apex, ⟨netCrossX pos newPos, 0, netZ⟩, vel, spn,
        true, false, false, false, time⟩
    else if netZ < cfg.netHeight then
      if netZ > cfg.netHeight - cfg.netContactMargin then
        NetStep.proceed
          ⟨vel.x * cfg.netClipRetentionX, vel.y * cfg.netClipRetentionY,
           vel.z * cfg.netClipRetentionZ⟩ true true
      else
        NetStep.finished ⟨apex, ⟨netCrossX pos newPos, 0, netZ⟩, vel, spn,
          true, false, false, false, time⟩
    else
      NetStep.proceed vel netContact true
  else
    NetStep.proceed vel netContact crossedNet

/-- Result of one full integration step. -/
inductive StepResult where
  | finished (r : TrajectoryResult) (rng : RngState)
  | stepped (st : FlightState)
deriving DecidableEq

/-- One iteration of the `simulateFlight` loop: advance time, integrate
velocity then position (semi-implicit Euler), track the apex, handle the
net-crossing event, then the table-landing event (with bounce, edge handling
and its RNG draws); otherwise carry the updated state to the next step. -/
def flightStep (pr : FloatPrims) (cfg : PhysicsConfig) (startSide : ℚ)
    (gfuel : ℕ) (st : FlightState) : StepResult :=
  let dt := cfg.timestep
  let time := st.time + dt
  let accel := flightAccel pr cfg st.vel st.spn
  let vel := v3add st.vel (v3scale accel dt)
  let newPos := v3add st.pos (v3scale vel dt)
  let apex := if newPos.z > st.apex.z then newPos else st.apex
  match netPhase cfg startSide st.pos newPos vel st.spn apex
      st.netContact st.crossedNet time with
  | NetStep.finished r => StepResult.finished r st.rng
  | NetStep.proceed vel2 nc cn =>
    if newPos.z ≤ 0 ∧ st.pos.z > 0 then
      let t := st.pos.z / (st.pos.z - newPos.z)
      let landX := st.pos.x + (newPos.x - st.pos.x) * t
      let landY := st.pos.y + (newPos.y - st.pos.y) * t
      let landPos : Vec3 := ⟨landX, landY, 0⟩
      let halfTable := cfg.tableLength / 2
      let halfWidth := cfg.tableWidth / 2
      if |landX| ≤ halfWidth ∧ |landY| ≤ halfTable then
        let distFromEdgeX := halfWidth - |landX|
        let distFromEdgeY := halfTable - |landY|
        let minEdgeDist := min distFromEdgeX distFromEdgeY
        if minEdgeDist ≤ cfg.edgeContactMargin then
          let b := applyBounce vel2 st.spn cfg
          let g1 := gaussian pr gfuel 0 cfg.edgeDeflectionStddevX st.rng
          let g2 := gaussian pr gfuel 0 cfg.edgeDeflectionStddevY g1.2
          let r3 := rngNext g2.2
          let bvel : Vec3 := ⟨b.velocity.x + g1.1, b.velocity.y + g2.1,
            b.velocity.z *
              (cfg.edgeDeflectionMinZRetention +
                r3.1 * (1 - cfg.edgeDeflectionMinZRetention))⟩
          StepResult.finished ⟨apex, landPos, bvel, b.spin, nc, true, cn, true, time⟩ r3.2
        else
          let b := applyBounce vel2 st.spn cfg
          StepResult.finished
            ⟨apex, landPos, b.velocity, b.spin, nc, st.edgeContact, cn, true, time⟩ st.rng
      else
        StepResult.finished
          ⟨apex, landPos, vel2, st.spn, nc, st.edgeContact, cn, false, time⟩ st.rng
    else
      StepResult.stepped ⟨newPos, vel2, st.spn, apex, nc, st.edgeContact, cn, time, st.rng⟩

/-- The timed-out return of `simulateFlight` (loop exhausted without event):
the last simulated state, flagged as not landing on the table. -/
def timeoutResult (st : FlightState) : TrajectoryResult :=
  ⟨st.apex, st.pos, st.vel, st.spn, st.netContact, st.edgeContact,
   st.crossedNet, false, st.time⟩

/-- The `simulateFlight` loop: runs at most the given number of steps; an
exhausted budget produces the timeout result. -/
def simulateFlightGo (pr : FloatPrims) (cfg : PhysicsConfig) (startSide : ℚ)
    (gfuel : ℕ) : ℕ → FlightState → TrajectoryResult × RngState
  | 0, st => (timeoutResult st, st.rng)
  | n + 1, st =>
    match flightStep pr cfg startSide gfuel st with
    | StepResult.finished r rng => (r, rng)
    | StepResult.stepped st2 => simulateFlightGo pr cfg startSide gfuel n st2

/-- The step budget `MAX_STEPS = Math.ceil(maxFlightTime / timestep)`. -/
def maxSteps (cfg : PhysicsConfig) : ℕ := ⌈cfg.maxFlightTime / cfg.timestep⌉₊

/-- Starting side of a flight: `Math.sign(startPos.y) || 1`. -/
def startSideOf (startPos : Vec3) : ℚ :=
  if signQ startPos.y = 0 then 1 else signQ startPos.y

/-- Initial loop state of `simulateFlight`. -/
def initFlightState (startPos velocity spin : Vec3) (rng : RngState) : FlightState :=
  ⟨startPos, velocity, spin, startPos, false, false, false, 0, rng⟩

/-- Simulate ball flight from contact point to its next terminal event
(`simulateFlight`), returning the result together with the advanced RNG
state. -/
def simulateFlight (pr : FloatPrims) (cfg : PhysicsConfig) (gfuel : ℕ)
    (startPos velocity spin : Vec3) (rng : RngState) : TrajectoryResult × RngState :=
  simulateFlightGo pr cfg (startSideOf startPos) gfuel (maxSteps cfg)
    (initFlightState startPos velocity spin rng)

/-- Decide whether the loop takes a continuing step for the whole given fuel
(no terminal event fires). -/
def allContinue (pr : FloatPrims) (cfg : PhysicsConfig) (startSide : ℚ)
    (gfuel : ℕ) : ℕ → FlightState → Bool
  | 0, _ => true
  | n + 1, st =>
    match flightStep pr cfg startSide gfuel st with
    | StepResult.finished _ _ => false
    | StepResult.stepped st2 => allContinue pr cfg startSide gfuel n st2

/-- Iterate the loop state through continuing steps (stops at a terminal
step; only used under `allContinue`). -/
def flightIter (pr : FloatPrims) (cfg : PhysicsConfig) (startSide : ℚ)
    (gfuel : ℕ) : ℕ → FlightState → FlightState
  | 0, st => st
  | n + 1, st =>
    match flightStep pr cfg startSide gfuel st with
    | StepResult.finished _ _ => st
    | StepResult.stepped st2 => flightIter pr cfg startSide gfuel n st2

-- ---------------------------------------------------------------------------
-- Serve simulator (source: trajectory.ts, `simulateServe`)
-- ---------------------------------------------------------------------------

/-- The record combining the two phases of a legal serve (the final return of
`simulateServe`): OR-merged contact flags, higher apex, summed flight times,
and phase-2 terminal data. -/
def mergedServe (phase1 phase2 : TrajectoryResult) : TrajectoryResult :=
  ⟨if phase1.apex.z > phase2.apex.z then phase1.apex else phase2.apex,
   phase2.landingPosition, phase2.landingVelocity, phase2.landingSpin,
   phase1.netContact || phase2.netContact,
   phase1.edgeContact || phase2.edgeContact,
   phase2.crossedNet, phase2.landsOnTable,
   phase1.flightTime + phase2.flightTime⟩

/-- Two-phase serve simulation (`simulateServe`): phase 1 to the first bounce;
if it misses the table or bounces off the server's half, its result is
returned as-is; otherwise phase 2 continues from the bounce state and the
phases are merged. -/
def simulateServe (pr : FloatPrims) (cfg : PhysicsConfig) (gfuel : ℕ)
    (startPos velocity spin : Vec3) (rng : RngState) : TrajectoryResult × RngState :=
  let p1 := simulateFlight pr cfg gfuel startPos velocity spin rng
  if p1.1.landsOnTable = false then p1
  else
    let serverSide := startSideOf startPos
    if signQ p1.1.landingPosition.y ≠ serverSide then p1
    else
      let p2 := simulateFlight pr cfg gfuel p1.1.landingPosition
        p1.1.landingVelocity p1.1.landingSpin p1.2
      (mergedServe p1.1 p2.1, p2.2)

-- ---------------------------------------------------------------------------
-- Execution quality (source: physics/execution.ts)
-- ---------------------------------------------------------------------------

/-- Rally execution quality (`computeExecutionQuality`): consistency scaled by
positional, time-pressure and risk penalties, clamped to [0,1]. -/
def computeExecutionQuality (consistency positionalDeficit timeAvailable
    riskLevel : ℚ) (config : PhysicsConfig) : ℚ :=
  let baseQuality := consistency / 100
  let timePressure := 1 - clamp (timeAvailable / config.comfortableTime) 0 1
  let quality := baseQuality *
    (1 - positionalDeficit * config.positionWeight) *
    (1 - timePressure * config.timePressureWeight) *
    (1 - riskLevel * config.riskWeight)
  clamp quality 0 1

/-- Serve execution quality (`computeServeQuality`): blend of service skill
and consistency with a risk penalty, clamped to [0,1]. -/
def computeServeQuality (serviceSkill consistency riskLevel : ℚ)
    (config : PhysicsConfig) : ℚ :=
  let baseQuality := (serviceSkill / 100 + consistency / 100) / 2
  let quality := baseQuality * (1 - riskLevel * config.riskWeight)
  clamp quality 0 1

-- ---------------------------------------------------------------------------
-- Physics engine facade (source: physics/index.ts, `DefaultPhysicsEngine`)
-- ---------------------------------------------------------------------------

/-- Which side of the paddle a stroke uses. -/
inductive StrokeSide where
  | forehand : StrokeSide
  | backhand : StrokeSide
deriving DecidableEq

/-- Per-side capability ceilings of a player. -/
structure SideCapabilities where
  powerCeiling : ℚ
  spinCeiling : ℚ
  accuracy : ℚ
  consistency : ℚ
deriving DecidableEq

/-- Both sides' capabilities (`StrokeCapabilities`). -/
structure StrokeCapabilities where
  forehand : SideCapabilities
  backhand : SideCapabilities
deriving DecidableEq

/-- Physical outcome of a shot or serve (`BallFlight`): the fields read by the
embedded `analyzeArrival`. -/
structure BallFlight where
  startPosition : Vec3
  velocity : Vec3
  spin : Vec3
  apex : Vec3
  landingPosition : Vec3
  netContact : Bool
  edgeContact : Bool
  executionQuality : ℚ
deriving DecidableEq

/-- Ball-arrival analysis result (`ArrivalState`). -/
structure ArrivalState where
  ballPosition : Vec3
  ballVelocity : Vec3
  ballSpin : Vec3
  timeAvailable : ℚ
  availableSides : List StrokeSide
  positionalDeficit : ℚ
deriving DecidableEq

/-- Geometric side availability (`computeAvailableSides`): when severely
stretched only the geometrically closer side (by sign of the ball's X offset
relative to the player) is reachable, otherwise both sides are. -/
def computeAvailableSides (playerPos ballPos : Vec2)
    (positionalDeficit : ℚ) : List StrokeSide :=
  let relativeX := ballPos.x - playerPos.x
  if positionalDeficit > 0.85 then
    if relativeX ≥ 0 then [StrokeSide.forehand] else [StrokeSide.backhand]
  else
    [StrokeSide.forehand, StrokeSide.backhand]

/-- Arrival analysis (`analyzeArrival`): contact height from the incoming
vertical speed, time available from distance over ball speed with a 0.5 s
fallback at zero speed, positional deficit from distance-to-contact over
footwork-scaled reach (with explicit zero-reach fallbacks), and reachable
sides.  The capabilities argument is accepted but unused, as in the source. -/
def analyzeArrival (pr : FloatPrims) (cfg : PhysicsConfig) (ball : BallFlight)
    (receiverPosition : Vec2) (_receiverCapabilities : StrokeCapabilities)
    (receiverFootwork : ℚ) : ArrivalState :=
  let arrivalX := ball.landingPosition.x
  let arrivalY := ball.landingPosition.y
  let contactHeight := 20 + |ball.velocity.z| * 0.02
  let ballPosition : Vec3 := ⟨arrivalX, arrivalY, contactHeight⟩
  let ballSpeed := v3mag pr ball.velocity
  let distance := v3mag pr (v3sub ball.landingPosition ball.startPosition)
  let timeAvailable := if ballSpeed > 0 then distance / ballSpeed else 0.5
  let idealContactPos : Vec2 := ⟨arrivalX, arrivalY⟩
  let distToContact := v2dist pr receiverPosition idealContactPos
  let maxReach := receiverFootwork / 100 * cfg.maxRecoverySpeed * timeAvailable
  let positionalDeficit := if maxReach > 0 then clamp (distToContact / maxReach) 0 1
    else if distToContact > 0 then 1 else 0
  let availableSides :=
    computeAvailableSides receiverPosition idealContactPos positionalDeficit
  ⟨ballPosition, ball.velocity, ball.spin, timeAvailable, availableSides,
   positionalDeficit⟩

/-- Velocity solver (`DefaultPhysicsEngine.computeVelocity`): 85% of the speed
budget goes to the horizontal direction toward the target; the vertical
component is the projectile closed form landing at z=0 after
`horizontalDist / max(horizontalSpeed, 1)` seconds, raised to the
net-clearance solution when start and target straddle Y=0. -/
def computeVelocity (pr : FloatPrims) (cfg : PhysicsConfig) (start : Vec3)
    (target : Vec2) (netClearance speed : ℚ) : Vec3 :=
  let dx := target.x - start.x
  let dy := target.y - start.y
  let horizontalDist := pr.sqrt (dx * dx + dy * dy)
  if horizontalDist = 0 then ⟨0, 0, -speed * 0.5⟩
  else
    let g := cfg.gravity
    let horizontalSpeed := speed * 0.85
    let totalFlightTime := horizontalDist / max horizontalSpeed 1
    let vzLand := (1/2 * g * totalFlightTime * totalFlightTime - start.z) / totalFlightTime
    let ballCrossesNet := start.y * target.y < 0
    let vz :=
      if ballCrossesNet then
        let distToNet := |start.y|
        let flightTimeToNet := distToNet / max horizontalSpeed 1
        let targetNetHeight := cfg.netHeight + netClearance
        let vzNet := (targetNetHeight - start.z +
          1/2 * g * flightTimeToNet * flightTimeToNet) / flightTimeToNet
        max vzLand vzNet
      else vzLand
    let dirX := dx / horizontalDist
    let dirY := dy / horizontalDist
    ⟨dirX * horizontalSpeed, dirY * horizontalSpeed, vz⟩

/-- Modelled from the spec (for comparison with `computeVelocity`): the
velocity solve as §4.6 words it, with total flight time equal to horizontal
distance divided by the horizontal speed itself (no floor on the divisor),
and likewise for the time to reach the net. -/
def computeVelocitySpecModel (pr : FloatPrims) (cfg : PhysicsConfig)
    (start : Vec3) (target : Vec2) (netClearance speed : ℚ) : Vec3 :=
  let dx := target.x - start.x
  let dy := target.y - start.y
  let horizontalDist := pr.sqrt (dx * dx + dy * dy)
  if horizontalDist = 0 then ⟨0, 0, -speed * 0.5⟩
  else
    let g := cfg.gravity
    let horizontalSpeed := speed * 0.85
    let totalFlightTime := horizontalDist / horizontalSpeed
    let vzLand := (1/2 * g * totalFlightTime * totalFlightTime - start.z) / totalFlightTime
    let ballCrossesNet := start.y * target.y < 0
    let vz :=
      if ballCrossesNet then
        let distToNet := |start.y|
        let flightTimeToNet := distToNet / horizontalSpeed
        let targetNetHeight := cfg.netHeight + netClearance
        let vzNet := (targetNetHeight - start.z +
          1/2 * g * flightTimeToNet * flightTimeToNet) / flightTimeToNet
        max vzLand vzNet
      else vzLand
    let dirX := dx / horizontalDist
    let dirY := dy / horizontalDist
    ⟨dirX * horizontalSpeed, dirY * horizontalSpeed, vz⟩

-- ---------------------------------------------------------------------------
-- Spin read & deception pipeline (source: player/spin-read.ts)
-- ---------------------------------------------------------------------------

/-- The player-engine configuration fields consumed by the embedded spin-read
pipeline (`PlayerEngineConfig`, spin-read subset). -/
structure PlayerEngineConfig where
  readDifficultyScale : ℚ
  readAccuracyBase : ℚ
  readAccuracySpinReadScale : ℚ
  readDifficultyPenalty : ℚ
  minReadAccuracy : ℚ
  spinMisreadEpsilon : ℚ
  spinNoiseStddev : ℚ
deriving DecidableEq

/-- Read difficulty (`computeReadDifficulty`): multiplicative in the sender's
deception attribute and per-shot deception effort, clamped to [0,1]. -/
def computeReadDifficulty (senderDeception deceptionEffort : ℚ)
    (config : PlayerEngineConfig) : ℚ :=
  clamp (senderDeception / 100 * deceptionEffort * config.readDifficultyScale) 0 1

/-- Read accuracy (`computeReadAccuracy`): base plus spin-read contribution,
penalised by difficulty, clamped to [minReadAccuracy, 1]. -/
def computeReadAccuracy (receiverSpinRead readDifficulty : ℚ)
    (config : PlayerEngineConfig) : ℚ :=
  let base := config.readAccuracyBase +
    receiverSpinRead / 100 * config.readAccuracySpinReadScale
  let penalized := base - readDifficulty * config.readDifficultyPenalty
  clamp penalized config.minReadAccuracy 1

/-- Perceived spin (`computePerceivedSpin`): per-axis Gaussian noise scaled by
`(1 - readAccuracy) * |spin| * spinNoiseStddev`, with an exact copy (misread
0) for negligible spin; returns ((perceivedSpin, misread), advanced RNG). -/
def computePerceivedSpin (pr : FloatPrims) (fuel : ℕ) (actualSpin : Vec3)
    (readAccuracy : ℚ) (rng : RngState) (config : PlayerEngineConfig) :
    (Vec3 × ℚ) × RngState :=
  let spinMag := v3mag pr actualSpin
  if spinMag < config.spinMisreadEpsilon then ((actualSpin, 0), rng)
  else
    let errorFactor := 1 - readAccuracy
    let noiseScale := errorFactor * spinMag * config.spinNoiseStddev
    let gx := gaussian pr fuel 0 noiseScale rng
    let gy := gaussian pr fuel 0 noiseScale gx.2
    let gz := gaussian pr fuel 0 noiseScale gy.2
    let perceivedSpin : Vec3 :=
      ⟨actualSpin.x + gx.1, actualSpin.y + gy.1, actualSpin.z + gz.1⟩
    let errorMag := v3mag pr (v3sub perceivedSpin actualSpin)
    ((perceivedSpin, clamp (errorMag / spinMag) 0 1), gz.2)

-- ---------------------------------------------------------------------------
-- Deception-effort lookup in DefaultPlayerEngine.decideShot
-- (sources: player/index.ts lines 53-74, types RecordedShot)
-- ---------------------------------------------------------------------------

/-- A shot as recorded in rally history (`RecordedShot`): the declared fields
are exactly the player's name, the stroke side, and the resulting flight. -/
structure RecordedShot where
  player : List ℕ
  side : StrokeSide
  ballFlight : BallFlight
deriving DecidableEq

/-- JS property access `shot.deceptionEffort` on a `RecordedShot`: the record
type declares no such property, so the access yields `undefined` (`none`). -/
def recordedShotDeceptionEffort (_shot : RecordedShot) : Option ℚ := none

/-- The deception-effort lookup of `decideShot`:
`(rallyHistory.length > 0 ? rallyHistory[rallyHistory.length - 1] : undefined)
  ?.deceptionEffort ?? 0`. -/
def lookupDeceptionEffort (rallyHistory : List RecordedShot) : ℚ :=
  match rallyHistory.getLast? with
  | none => 0
  | some lastShot => (recordedShotDeceptionEffort lastShot).getD 0

/-- The read difficulty computed inside `DefaultPlayerEngine.decideShot`: the
opponent's deception attribute combined with the effort looked up from the
rally history. -/
def decideShotReadDifficulty (rallyHistory : List RecordedShot)
    (opponentDeception : ℚ) (config : PlayerEngineConfig) : ℚ :=
  computeReadDifficulty opponentDeception (lookupDeceptionEffort rallyHistory) config

-- ---------------------------------------------------------------------------
-- Concrete instances used to evaluate the model at specific inputs
-- ---------------------------------------------------------------------------

/-- Primitives interpretation with `pi = 0` and vanishing `sqrt`/`log`: under
it the drag and Magnus prefactors vanish, so flights are exact explicit
gravity-only Euler arcs, which makes concrete trajectories decidable. -/
def prGravityOnly : FloatPrims := ⟨fun _ => 0, fun _ => 0, 0⟩

/-- Primitives interpretation returning the exact square root on the one
perfect square a concrete velocity solve needs (10000 ↦ 100). -/
def prSqrtTable : FloatPrims := ⟨fun q => if q = 10000 then 100 else 0, fun _ => 0, 0⟩

/-- Primitives interpretation for concrete spin-read runs: `sqrt` is exact on
the perfect square 400 (↦ 20) and positive elsewhere, `log` is a negative
constant — consistent with the float facts `sqrt x > 0` for `x > 0` and
`log s < 0` for `0 < s < 1` that the real primitives satisfy at the points
used. -/
def prSpinProbe : FloatPrims := ⟨fun q => if q = 400 then 20 else 1, fun _ => -1, 0⟩

/-- Primitives interpretation whose `sqrt` is the identity (used to exhibit
arrival analyses with a positive distance to contact). -/
def prIdent : FloatPrims := ⟨fun q => q, fun _ => 0, 0⟩

/-- Default physics configuration with a coarse 0.1 s timestep, keeping
concrete trajectory runs to a handful of steps. -/
def cfgCoarse : PhysicsConfig :=
  { DEFAULT_PHYSICS_CONFIG with timestep := 0.1 }

/-- Coarse configuration with a 0.2 s flight-time cap: its step budget is
exactly 2, so the timeout fallback is reachable on concrete inputs. -/
def cfgCap2 : PhysicsConfig :=
  { DEFAULT_PHYSICS_CONFIG with timestep := 0.1, maxFlightTime := 0.2 }

/-- A concrete spin-read configuration consistent with the documented model
(a base read level, a spin-read contribution on top, an accuracy floor below
1, a small misread epsilon and a positive noise scale). -/
def cfgSpinRead : PlayerEngineConfig :=
  ⟨1, 0.5, 0.3, 0.5, 0.1, 0.01, 0.5⟩

-- ---------------------------------------------------------------------------
-- Shared lemmas
-- ---------------------------------------------------------------------------

/-- A value clamped to [0,1] is nonnegative. -/
theorem clamp01_nonneg (v : ℚ) : 0 ≤ clamp v 0 1 := le_max_left 0 _

/-- A value clamped to [0,1] is at most one. -/
theorem clamp01_le_one (v : ℚ) : clamp v 0 1 ≤ 1 :=
  max_le zero_le_one (min_le_left 1 v)

/-- A Gaussian draw with standard deviation zero returns the mean exactly
(in both the cached-spare and the fresh-draw branch). -/
theorem gaussian_zero_stddev (pr : FloatPrims) (fuel : ℕ) (mean : ℚ)
    (st : RngState) : (gaussian pr fuel mean 0 st).1 = mean := by
  unfold gaussian
  split <;> simp

/-- One-step unrolling of the flight loop. -/
theorem simulateFlightGoSucc (pr : FloatPrims) (cfg : PhysicsConfig) (side : ℚ)
    (gfuel n : ℕ) (st : FlightState) :
    simulateFlightGo pr cfg side gfuel (n + 1) st =
      match flightStep pr cfg side gfuel st with
      | StepResult.finished r rng => (r, rng)
      | StepResult.stepped st2 => simulateFlightGo pr cfg side gfuel n st2 := rfl

/-- One-step unrolling of the no-event check. -/
theorem allContinueSucc (pr : FloatPrims) (cfg : PhysicsConfig) (side : ℚ)
    (gfuel n : ℕ) (st : FlightState) :
    allContinue pr cfg side gfuel (n + 1) st =
      match flightStep pr cfg side gfuel st with
      | StepResult.finished _ _ => false
      | StepResult.stepped st2 => allContinue pr cfg side gfuel n st2 := rfl

/-- The coarse configuration has a 30-step budget. -/
theorem maxSteps_cfgCoarse : maxSteps cfgCoarse = 30 := by
  norm_num [maxSteps, cfgCoarse, DEFAULT_PHYSICS_CONFIG]

/-- Concrete serve phase 1 (wrong-half scenario): the ball from the Y=0 start
crosses cleanly and lands on the receiver half within one coarse step. -/
theorem stepEvalCE1 : flightStep prGravityOnly cfgCoarse 1 1
    (initFlightState ⟨0, 0, 16⟩ ⟨0, -50, -70⟩ ⟨0, 0, 0⟩ (createRng 7)) =
    StepResult.finished ⟨⟨0, 0, 16⟩, ⟨0, -8000/1681, 0⟩, ⟨0, -50, 156333/1000⟩,
      ⟨0, 0, 0⟩, false, false, true, true, 1/10⟩ (createRng 7) := by
  norm_num [flightStep, initFlightState, flightAccel, netPhase, netCrossZ, netCrossX,
    netCrossT, signQ, v3mag, v3scale, v3add, v3cross, applyBounce,
    prGravityOnly, cfgCoarse, DEFAULT_PHYSICS_CONFIG, abs, max_def, min_def]

/-- Evaluated phase 1 of the wrong-half serve scenario. -/
theorem flightEvalCE1 : simulateFlight prGravityOnly cfgCoarse 1 ⟨0, 0, 16⟩
    ⟨0, -50, -70⟩ ⟨0, 0, 0⟩ (createRng 7) =
    (⟨⟨0, 0, 16⟩, ⟨0, -8000/1681, 0⟩, ⟨0, -50, 156333/1000⟩, ⟨0, 0, 0⟩,
      false, false, true, true, 1/10⟩, createRng 7) := by
  have hss : startSideOf (⟨0, 0, 16⟩ : Vec3) = 1 := by
    norm_num [startSideOf, signQ]
  show simulateFlightGo prGravityOnly cfgCoarse (startSideOf ⟨0, 0, 16⟩) 1
    (maxSteps cfgCoarse)
    (initFlightState ⟨0, 0, 16⟩ ⟨0, -50, -70⟩ ⟨0, 0, 0⟩ (createRng 7)) = _
  rw [maxSteps_cfgCoarse, hss]
  simp only [show (30 : ℕ) = 29 + 1 from rfl, simulateFlightGoSucc, stepEvalCE1]

/-- Step 1 of the wrong-half scenario's phase 2. -/
theorem stepEvalCE2a : flightStep prGravityOnly cfgCoarse (-1) 1
    (initFlightState ⟨0, -8000/1681, 0⟩ ⟨0, -50, 156333/1000⟩ ⟨0, 0, 0⟩
      (createRng 7)) =
    StepResult.stepped ⟨⟨0, -16405/1681, 58233/10000⟩, ⟨0, -50, 58233/1000⟩,
      ⟨0, 0, 0⟩, ⟨0, -16405/1681, 58233/10000⟩, false, false, false, 1/10,
      createRng 7⟩ := by
  norm_num [flightStep, initFlightState, flightAccel, netPhase, netCrossZ, netCrossX,
    netCrossT, signQ, v3mag, v3scale, v3add, v3cross, applyBounce,
    prGravityOnly, cfgCoarse, DEFAULT_PHYSICS_CONFIG, abs, max_def, min_def]

/-- Step 2 of the wrong-half scenario's phase 2. -/
theorem stepEvalCE2b : flightStep prGravityOnly cfgCoarse (-1) 1
    ⟨⟨0, -16405/1681, 58233/10000⟩, ⟨0, -50, 58233/1000⟩, ⟨0, 0, 0⟩,
      ⟨0, -16405/1681, 58233/10000⟩, false, false, false, 1/10, createRng 7⟩ =
    StepResult.stepped ⟨⟨0, -24810/1681, 9183/5000⟩, ⟨0, -50, -39867/1000⟩,
      ⟨0, 0, 0⟩, ⟨0, -16405/1681, 58233/10000⟩, false, false, false, 1/5,
      createRng 7⟩ := by
  norm_num [flightStep, flightAccel, netPhase, netCrossZ, netCrossX, netCrossT, signQ,
    v3mag, v3scale, v3add, v3cross, applyBounce, prGravityOnly, cfgCoarse,
    DEFAULT_PHYSICS_CONFIG, abs, max_def, min_def]

/-- Step 3 of the wrong-half scenario's phase 2: table landing. -/
theorem stepEvalCE2c : flightStep prGravityOnly cfgCoarse (-1) 1
    ⟨⟨0, -24810/1681, 9183/5000⟩, ⟨0, -50, -39867/1000⟩, ⟨0, 0, 0⟩,
      ⟨0, -16405/1681, 58233/10000⟩, false, false, false, 1/5, createRng 7⟩ =
    StepResult.finished ⟨⟨0, -16405/1681, 58233/10000⟩,
      ⟨0, -1192442500/77307509, 0⟩, ⟨0, -50, 12830931/100000⟩, ⟨0, 0, 0⟩,
      false, false, false, true, 3/10⟩ (createRng 7) := by
  norm_num [flightStep, flightAccel, netPhase, netCrossZ, netCrossX, netCrossT, signQ,
    v3mag, v3scale, v3add, v3cross, applyBounce, prGravityOnly, cfgCoarse,
    DEFAULT_PHYSICS_CONFIG, abs, max_def, min_def]

/-- Evaluated phase 2 of the wrong-half serve scenario. -/
theorem flightEvalCE2 : simulateFlight prGravityOnly cfgCoarse 1
    ⟨0, -8000/1681, 0⟩ ⟨0, -50, 156333/1000⟩ ⟨0, 0, 0⟩ (createRng 7) =
    (⟨⟨0, -16405/1681, 58233/10000⟩, ⟨0, -1192442500/77307509, 0⟩,
      ⟨0, -50, 12830931/100000⟩, ⟨0, 0, 0⟩, false, false, false, true, 3/10⟩,
     createRng 7) := by
  have hss : startSideOf (⟨0, -8000/1681, 0⟩ : Vec3) = -1 := by
    norm_num [startSideOf, signQ]
  show simulateFlightGo prGravityOnly cfgCoarse (startSideOf ⟨0, -8000/1681, 0⟩)
    1 (maxSteps cfgCoarse)
    (initFlightState ⟨0, -8000/1681, 0⟩ ⟨0, -50, 156333/1000⟩ ⟨0, 0, 0⟩
      (createRng 7)) = _
  rw [maxSteps_cfgCoarse, hss]
  simp only [show (30 : ℕ) = 29 + 1 from rfl, simulateFlightGoSucc, stepEvalCE2a]
  simp only [show (29 : ℕ) = 28 + 1 from rfl, simulateFlightGoSucc, stepEvalCE2b]
  simp only [show (28 : ℕ) = 27 + 1 from rfl, simulateFlightGoSucc, stepEvalCE2c]

/-- Concrete serve phase 1 (legal scenario): the ball lands on the server's
own half within one coarse step without reaching the net plane. -/
theorem stepEvalW1 : flightStep prGravityOnly cfgCoarse 1 1
    (initFlightState ⟨0, 5, 10⟩ ⟨0, -20, -50⟩ ⟨0, 0, 0⟩ (createRng 7)) =
    StepResult.finished ⟨⟨0, 5, 10⟩, ⟨0, 5405/1481, 0⟩, ⟨0, -20, 137733/1000⟩,
      ⟨0, 0, 0⟩, false, false, false, true, 1/10⟩ (createRng 7) := by
  norm_num [flightStep, initFlightState, flightAccel, netPhase, netCrossZ, netCrossX,
    netCrossT, signQ, v3mag, v3scale, v3add, v3cross, applyBounce,
    prGravityOnly, cfgCoarse, DEFAULT_PHYSICS_CONFIG, abs, max_def, min_def]

/-- Evaluated phase 1 of the legal serve scenario. -/
theorem flightEvalW1 : simulateFlight prGravityOnly cfgCoarse 1 ⟨0, 5, 10⟩
    ⟨0, -20, -50⟩ ⟨0, 0, 0⟩ (createRng 7) =
    (⟨⟨0, 5, 10⟩, ⟨0, 5405/1481, 0⟩, ⟨0, -20, 137733/1000⟩, ⟨0, 0, 0⟩,
      false, false, false, true, 1/10⟩, createRng 7) := by
  have hss : startSideOf (⟨0, 5, 10⟩ : Vec3) = 1 := by
    norm_num [startSideOf, signQ]
  show simulateFlightGo prGravityOnly cfgCoarse (startSideOf ⟨0, 5, 10⟩) 1
    (maxSteps cfgCoarse)
    (initFlightState ⟨0, 5, 10⟩ ⟨0, -20, -50⟩ ⟨0, 0, 0⟩ (createRng 7)) = _
  rw [maxSteps_cfgCoarse, hss]
  simp only [show (30 : ℕ) = 29 + 1 from rfl, simulateFlightGoSucc, stepEvalW1]

/-- Step 1 of the legal serve scenario's phase 2. -/
theorem stepEvalW2a : flightStep prGravityOnly cfgCoarse 1 1
    (initFlightState ⟨0, 5405/1481, 0⟩ ⟨0, -20, 137733/1000⟩ ⟨0, 0, 0⟩
      (createRng 7)) =
    StepResult.stepped ⟨⟨0, 2443/1481, 39633/10000⟩, ⟨0, -20, 39633/1000⟩,
      ⟨0, 0, 0⟩, ⟨0, 2443/1481, 39633/10000⟩, false, false, false, 1/10,
      createRng 7⟩ := by
  norm_num [flightStep, initFlightState, flightAccel, netPhase, netCrossZ, netCrossX,
    netCrossT, signQ, v3mag, v3scale, v3add, v3cross, applyBounce,
    prGravityOnly, cfgCoarse, DEFAULT_PHYSICS_CONFIG, abs, max_def, min_def]

/-- Step 2 of the legal serve scenario's phase 2: the second crossing dips
below table level at the net plane — a terminal net fault ends phase 2. -/
theorem stepEvalW2b : flightStep prGravityOnly cfgCoarse 1 1
    ⟨⟨0, 2443/1481, 39633/10000⟩, ⟨0, -20, 39633/1000⟩, ⟨0, 0, 0⟩,
      ⟨0, 2443/1481, 39633/10000⟩, false, false, false, 1/10, createRng 7⟩ =
    StepResult.finished ⟨⟨0, 2443/1481, 39633/10000⟩,
      ⟨0, 0, -5088387/5924000⟩, ⟨0, -20, -58467/1000⟩, ⟨0, 0, 0⟩,
      true, false, false, false, 1/5⟩ (createRng 7) := by
  norm_num [flightStep, flightAccel, netPhase, netCrossZ, netCrossX, netCrossT, signQ,
    v3mag, v3scale, v3add, v3cross, applyBounce, prGravityOnly, cfgCoarse,
    DEFAULT_PHYSICS_CONFIG, abs, max_def, min_def]

/-- Evaluated phase 2 of the legal serve scenario. -/
theorem flightEvalW2 : simulateFlight prGravityOnly cfgCoarse 1
    ⟨0, 5405/1481, 0⟩ ⟨0, -20, 137733/1000⟩ ⟨0, 0, 0⟩ (createRng 7) =
    (⟨⟨0, 2443/1481, 39633/10000⟩, ⟨0, 0, -5088387/5924000⟩,
      ⟨0, -20, -58467/1000⟩, ⟨0, 0, 0⟩, true, false, false, false, 1/5⟩,
     createRng 7) := by
  have hss : startSideOf (⟨0, 5405/1481, 0⟩ : Vec3) = 1 := by
    norm_num [startSideOf, signQ]
  show simulateFlightGo prGravityOnly cfgCoarse (startSideOf ⟨0, 5405/1481, 0⟩)
    1 (maxSteps cfgCoarse)
    (initFlightState ⟨0, 5405/1481, 0⟩ ⟨0, -20, 137733/1000⟩ ⟨0, 0, 0⟩
      (createRng 7)) = _
  rw [maxSteps_cfgCoarse, hss]
  simp only [show (30 : ℕ) = 29 + 1 from rfl, simulateFlightGoSucc, stepEvalW2a]
  simp only [show (29 : ℕ) = 28 + 1 from rfl, simulateFlightGoSucc, stepEvalW2b]

/-- First no-event step of the timeout scenario (capped configuration). -/
theorem stepEvalT1 : flightStep prGravityOnly cfgCap2 1 1
    (initFlightState ⟨0, 50, 1000⟩ ⟨0, 0, 0⟩ ⟨0, 0, 0⟩ (createRng 3)) =
    StepResult.stepped ⟨⟨0, 50, 99019/100⟩, ⟨0, 0, -981/10⟩, ⟨0, 0, 0⟩,
      ⟨0, 50, 1000⟩, false, false, false, 1/10, createRng 3⟩ := by
  norm_num [flightStep, initFlightState, flightAccel, netPhase, netCrossZ, netCrossX,
    netCrossT, signQ, v3mag, v3scale, v3add, v3cross, applyBounce,
    prGravityOnly, cfgCap2, DEFAULT_PHYSICS_CONFIG, abs, max_def, min_def]

/-- Second no-event step of the timeout scenario. -/
theorem stepEvalT2 : flightStep prGravityOnly cfgCap2 1 1
    ⟨⟨0, 50, 99019/100⟩, ⟨0, 0, -981/10⟩, ⟨0, 0, 0⟩, ⟨0, 50, 1000⟩,
      false, false, false, 1/10, createRng 3⟩ =
    StepResult.stepped ⟨⟨0, 50, 97057/100⟩, ⟨0, 0, -981/5⟩, ⟨0, 0, 0⟩,
      ⟨0, 50, 1000⟩, false, false, false, 1/5, createRng 3⟩ := by
  norm_num [flightStep, flightAccel, netPhase, netCrossZ, netCrossX, netCrossT, signQ,
    v3mag, v3scale, v3add, v3cross, applyBounce, prGravityOnly, cfgCap2,
    DEFAULT_PHYSICS_CONFIG, abs, max_def, min_def]

/-- One-step unrolling of the all-continuing state iteration. -/
theorem flightIterSucc (pr : FloatPrims) (cfg : PhysicsConfig) (side : ℚ)
    (gfuel n : ℕ) (st : FlightState) :
    flightIter pr cfg side gfuel (n + 1) st =
      match flightStep pr cfg side gfuel st with
      | StepResult.finished _ _ => st
      | StepResult.stepped st2 => flightIter pr cfg side gfuel n st2 := rfl

-- ---------------------------------------------------------------------------
-- Claim theorems
-- ---------------------------------------------------------------------------

/-- C1.  Determinism: random sources built from equal seeds produce
bit-identical output sequences for any ordered list of `next()`/`gaussian()`
calls, and the engine operations producing `BallFlight`
(`simulateFlight`/`simulateServe`) and `ArrivalState` (`analyzeArrival`)
return bit-identical results when fed identical inputs and identical RNG
states — the outputs are functions of the seed and the inputs alone. -/
theorem determinism_bit_identical (pr : FloatPrims) (gfuel : ℕ)
    (cfg : PhysicsConfig) (seed₁ seed₂ : ℤ) (calls₁ calls₂ : List RngCall)
    (p₁ p₂ v₁ v₂ s₁ s₂ : Vec3) (r₁ r₂ : RngState)
    (ball₁ ball₂ : BallFlight) (pos₁ pos₂ : Vec2)
    (caps₁ caps₂ : StrokeCapabilities) (fw₁ fw₂ : ℚ)
    (hseed : seed₁ = seed₂) (hcalls : calls₁ = calls₂)
    (hp : p₁ = p₂) (hv : v₁ = v₂) (hs : s₁ = s₂) (hr : r₁ = r₂)
    (hball : ball₁ = ball₂) (hpos : pos₁ = pos₂) (hcaps : caps₁ = caps₂)
    (hfw : fw₁ = fw₂) :
    runRng pr gfuel (createRng seed₁) calls₁ =
      runRng pr gfuel (createRng seed₂) calls₂
    ∧ simulateFlight pr cfg gfuel p₁ v₁ s₁ r₁ =
      simulateFlight pr cfg gfuel p₂ v₂ s₂ r₂
    ∧ simulateServe pr cfg gfuel p₁ v₁ s₁ r₁ =
      simulateServe pr cfg gfuel p₂ v₂ s₂ r₂
    ∧ analyzeArrival pr cfg ball₁ pos₁ caps₁ fw₁ =
      analyzeArrival pr cfg ball₂ pos₂ caps₂ fw₂ := by
  subst hseed hcalls hp hv hs hr hball hpos hcaps hfw
  exact ⟨rfl, rfl, rfl, rfl⟩

/-- Witness for C1 at seed 123 and a concrete call list, flight, serve and
arrival input. -/
theorem determinism_bit_identical_witness :
    runRng prGravityOnly 2 (createRng 123)
        [RngCall.unif, RngCall.gauss 0 1, RngCall.unif] =
      runRng prGravityOnly 2 (createRng 123)
        [RngCall.unif, RngCall.gauss 0 1, RngCall.unif]
    ∧ simulateFlight prGravityOnly cfgCoarse 2 ⟨0, 100, 30⟩ ⟨0, -600, 50⟩
        ⟨0, 0, 0⟩ (createRng 5) =
      simulateFlight prGravityOnly cfgCoarse 2 ⟨0, 100, 30⟩ ⟨0, -600, 50⟩
        ⟨0, 0, 0⟩ (createRng 5)
    ∧ simulateServe prGravityOnly cfgCoarse 2 ⟨0, 100, 30⟩ ⟨0, -600, 50⟩
        ⟨0, 0, 0⟩ (createRng 5) =
      simulateServe prGravityOnly cfgCoarse 2 ⟨0, 100, 30⟩ ⟨0, -600, 50⟩
        ⟨0, 0, 0⟩ (createRng 5)
    ∧ analyzeArrival prGravityOnly cfgCoarse
        ⟨⟨0, 100, 30⟩, ⟨10, -300, -50⟩, ⟨0, 20, 0⟩, ⟨5, 50, 40⟩, ⟨20, -80, 0⟩,
         false, false, 0.85⟩ ⟨0, -150⟩
        ⟨⟨90, 88, 78, 80⟩, ⟨78, 80, 72, 75⟩⟩ 82 =
      analyzeArrival prGravityOnly cfgCoarse
        ⟨⟨0, 100, 30⟩, ⟨10, -300, -50⟩, ⟨0, 20, 0⟩, ⟨5, 50, 40⟩, ⟨20, -80, 0⟩,
         false, false, 0.85⟩ ⟨0, -150⟩
        ⟨⟨90, 88, 78, 80⟩, ⟨78, 80, 72, 75⟩⟩ 82 :=
  determinism_bit_identical prGravityOnly 2 cfgCoarse 123 123 _ _ _ _ _ _ _ _
    _ _ _ _ _ _ _ _ _ _ rfl rfl rfl rfl rfl rfl rfl rfl rfl rfl

/-- C4.  Bounce model postcondition: `applyBounce` returns the incoming
vertical velocity reversed and scaled by restitution, horizontal velocity
changed by one friction-scaled spin-axis component per axis
(`Δvx = +spin.y·friction`, `Δvy = -spin.x·friction`), and the spin vector
attenuated uniformly by `(1 - friction)`.  The function is pure: its type
consumes no RNG state. -/
theorem bounce_model_formulas (velocity spin : Vec3) (config : PhysicsConfig) :
    (applyBounce velocity spin config).velocity =
      ⟨velocity.x + spin.y * config.surfaceFriction,
       velocity.y - spin.x * config.surfaceFriction,
       -velocity.z * config.restitution⟩
    ∧ (applyBounce velocity spin config).spin =
      ⟨spin.x * (1 - config.surfaceFriction),
       spin.y * (1 - config.surfaceFriction),
       spin.z * (1 - config.surfaceFriction)⟩ :=
  ⟨rfl, rfl⟩

/-- C5.  Execution quality formulas: rally quality is
`clamp(consistency/100 · (1 - deficit·posWeight) · (1 - timePressure·pressureWeight)
· (1 - risk·riskWeight), 0, 1)` with
`timePressure = 1 - clamp(timeAvailable/comfortableTime, 0, 1)`; serve quality
is `clamp(average(serviceSkill, consistency)/100 · (1 - risk·riskWeight), 0, 1)`
with no positional or time terms; both always lie in [0,1]. -/
theorem execution_quality_formulas (consistency positionalDeficit timeAvailable
    riskLevel serviceSkill : ℚ) (cfg : PhysicsConfig) :
    computeExecutionQuality consistency positionalDeficit timeAvailable
        riskLevel cfg =
      clamp (consistency / 100 * (1 - positionalDeficit * cfg.positionWeight) *
        (1 - (1 - clamp (timeAvailable / cfg.comfortableTime) 0 1) *
          cfg.timePressureWeight) *
        (1 - riskLevel * cfg.riskWeight)) 0 1
    ∧ computeServeQuality serviceSkill consistency riskLevel cfg =
      clamp ((serviceSkill + consistency) / 2 / 100 *
        (1 - riskLevel * cfg.riskWeight)) 0 1
    ∧ 0 ≤ computeExecutionQuality consistency positionalDeficit timeAvailable
        riskLevel cfg
    ∧ computeExecutionQuality consistency positionalDeficit timeAvailable
        riskLevel cfg ≤ 1
    ∧ 0 ≤ computeServeQuality serviceSkill consistency riskLevel cfg
    ∧ computeServeQuality serviceSkill consistency riskLevel cfg ≤ 1 := by
  refine ⟨rfl, ?_, clamp01_nonneg _, clamp01_le_one _, clamp01_nonneg _,
    clamp01_le_one _⟩
  unfold computeServeQuality
  rw [show (serviceSkill / 100 + consistency / 100) / 2 =
    (serviceSkill + consistency) / 2 / 100 from by ring]

/-- C10.  Deception-effort lookup in `decideShot`: the effort is read off the
most recent rally-history entry (0 when the history is empty), the read
difficulty equals `clamp(opponentDeception/100 · effort · scale, 0, 1)`, and
since `RecordedShot` declares only `player`, `side` and `ballFlight`, the
accessed `deceptionEffort` property does not exist, so the looked-up effort —
and hence the difficulty — is 0 for every history. -/
theorem deception_effort_lookup (rallyHistory : List RecordedShot)
    (opponentDeception : ℚ) (cfg : PlayerEngineConfig) :
    (∀ shot : RecordedShot, recordedShotDeceptionEffort shot = none)
    ∧ lookupDeceptionEffort rallyHistory = 0
    ∧ decideShotReadDifficulty rallyHistory opponentDeception cfg =
      clamp (opponentDeception / 100 * lookupDeceptionEffort rallyHistory *
        cfg.readDifficultyScale) 0 1
    ∧ decideShotReadDifficulty rallyHistory opponentDeception cfg = 0 := by
  have hlook : lookupDeceptionEffort rallyHistory = 0 := by
    unfold lookupDeceptionEffort
    cases rallyHistory.getLast? <;> simp [recordedShotDeceptionEffort]
  refine ⟨fun _ => rfl, hlook, rfl, ?_⟩
  unfold decideShotReadDifficulty computeReadDifficulty
  rw [hlook]
  simp [clamp]

/-- C2.  Net-crossing event handling: in a step where the Y sign first
changes relative to the starting side, the Y=0 crossing height is the linear
interpolation `netCrossZ`, and exactly one of four outcomes occurs, in
priority order: (1) crossing height ≤ 0 → immediate terminal net fault;
(2) positive but below net height and within `netContactMargin` of clearing →
net contact flagged, velocity scaled per axis by the retention factors,
flight proceeds; (3) positive, below net height, outside the margin →
immediate terminal into-net; (4) at or above net height → clean crossing,
flight proceeds.  The final conjunct shows the four guards are exhaustive
(they are mutually exclusive by construction). -/
theorem net_crossing_event_cases (cfg : PhysicsConfig) (startSide : ℚ)
    (pos newPos vel spn apex : Vec3) (netContact crossedNet : Bool) (time : ℚ)
    (hcn : crossedNet = false) (hside : signQ newPos.y ≠ startSide)
    (hnz : signQ newPos.y ≠ 0) :
    (netCrossZ pos newPos ≤ 0 →
      netPhase cfg startSide pos newPos vel spn apex netContact crossedNet time =
        NetStep.finished ⟨apex, ⟨netCrossX pos newPos, 0, netCrossZ pos newPos⟩,
          vel, spn, true, false, false, false, time⟩)
    ∧ (0 < netCrossZ pos newPos → netCrossZ pos newPos < cfg.netHeight →
       netCrossZ pos newPos > cfg.netHeight - cfg.netContactMargin →
      netPhase cfg startSide pos newPos vel spn apex netContact crossedNet time =
        NetStep.proceed ⟨vel.x * cfg.netClipRetentionX,
          vel.y * cfg.netClipRetentionY, vel.z * cfg.netClipRetentionZ⟩ true true)
    ∧ (0 < netCrossZ pos newPos → netCrossZ pos newPos < cfg.netHeight →
       netCrossZ pos newPos ≤ cfg.netHeight - cfg.netContactMargin →
      netPhase cfg startSide pos newPos vel spn apex netContact crossedNet time =
        NetStep.finished ⟨apex, ⟨netCrossX pos newPos, 0, netCrossZ pos newPos⟩,
          vel, spn, true, false, false, false, time⟩)
    ∧ (0 < netCrossZ pos newPos → cfg.netHeight ≤ netCrossZ pos newPos →
      netPhase cfg startSide pos newPos vel spn apex netContact crossedNet time =
        NetStep.proceed vel netContact true)
    ∧ (netCrossZ pos newPos ≤ 0
       ∨ (0 < netCrossZ pos newPos ∧ netCrossZ pos newPos < cfg.netHeight ∧
          netCrossZ pos newPos > cfg.netHeight - cfg.netContactMargin)
       ∨ (0 < netCrossZ pos newPos ∧ netCrossZ pos newPos < cfg.netHeight ∧
          netCrossZ pos newPos ≤ cfg.netHeight - cfg.netContactMargin)
       ∨ (0 < netCrossZ pos newPos ∧ cfg.netHeight ≤ netCrossZ pos newPos)) := by
  unfold netPhase
  rw [if_pos ⟨hcn, hside, hnz⟩]
  refine ⟨fun h1 => by rw [if_pos h1],
    fun h1 h2 h3 => by rw [if_neg (by linarith), if_pos h2, if_pos h3],
    fun h1 h2 h3 => by rw [if_neg (by linarith), if_pos h2, if_neg (by linarith)],
    fun h1 h4 => by rw [if_neg (by linarith), if_neg (by linarith)],
    ?_⟩
  rcases le_or_lt (netCrossZ pos newPos) 0 with h | h
  · exact Or.inl h
  rcases lt_or_le (netCrossZ pos newPos) cfg.netHeight with h2 | h2
  · rcases le_or_lt (netCrossZ pos newPos) (cfg.netHeight - cfg.netContactMargin)
      with h3 | h3
    · exact Or.inr (Or.inr (Or.inl ⟨h, h2, h3⟩))
    · exact Or.inr (Or.inl ⟨h, h2, h3⟩)
  · exact Or.inr (Or.inr (Or.inr ⟨h, h2⟩))

/-- Witness for C2: a concrete crossing step (coarse default configuration,
ball dropping from y=40 to y=-20 with crossing height 4633/300 ≈ 15.44 cm,
above the 15.25 cm net) takes the clean-crossing outcome. -/
theorem net_crossing_event_cases_witness :
    netPhase cfgCoarse 1 ⟨0, 40, 25.19⟩ ⟨0, -20, 10.57⟩ ⟨0, -600, -146.2⟩
      ⟨0, 0, 0⟩ ⟨0, 100, 30⟩ false false 0.2 =
      NetStep.proceed ⟨0, -600, -146.2⟩ false true :=
  (net_crossing_event_cases cfgCoarse 1 ⟨0, 40, 25.19⟩ ⟨0, -20, 10.57⟩
    ⟨0, -600, -146.2⟩ ⟨0, 0, 0⟩ ⟨0, 100, 30⟩ false false 0.2 rfl
    (by norm_num [signQ]) (by norm_num [signQ])).2.2.2.1
    (by norm_num [netCrossZ, netCrossT, abs, max_def])
    (by norm_num [netCrossZ, netCrossT, cfgCoarse, DEFAULT_PHYSICS_CONFIG,
      abs, max_def])

/-- Counterexample for C3: a serve whose first flight lands on the table on
the half OPPOSITE the server (Y-sign differing from the server's side).  The
claim calls the SAME Y-sign the wrong half, so under the claim this landing
is not a fault and the two-phase merged result should be returned; the code
instead returns the phase-1 result as-is (first bounce must be on the
server's own half). -/
theorem serve_wrong_half_counterexample :
    (simulateFlight prGravityOnly cfgCoarse 1 ⟨0, 0, 16⟩ ⟨0, -50, -70⟩
      ⟨0, 0, 0⟩ (createRng 7)).1.landsOnTable = true
    ∧ signQ (simulateFlight prGravityOnly cfgCoarse 1 ⟨0, 0, 16⟩ ⟨0, -50, -70⟩
        ⟨0, 0, 0⟩ (createRng 7)).1.landingPosition.y ≠ startSideOf ⟨0, 0, 16⟩
    ∧ simulateServe prGravityOnly cfgCoarse 1 ⟨0, 0, 16⟩ ⟨0, -50, -70⟩
        ⟨0, 0, 0⟩ (createRng 7) =
      simulateFlight prGravityOnly cfgCoarse 1 ⟨0, 0, 16⟩ ⟨0, -50, -70⟩
        ⟨0, 0, 0⟩ (createRng 7)
    ∧ simulateServe prGravityOnly cfgCoarse 1 ⟨0, 0, 16⟩ ⟨0, -50, -70⟩
        ⟨0, 0, 0⟩ (createRng 7) ≠
      (mergedServe
        (simulateFlight prGravityOnly cfgCoarse 1 ⟨0, 0, 16⟩ ⟨0, -50, -70⟩
          ⟨0, 0, 0⟩ (createRng 7)).1
        (simulateFlight prGravityOnly cfgCoarse 1
          (simulateFlight prGravityOnly cfgCoarse 1 ⟨0, 0, 16⟩ ⟨0, -50, -70⟩
            ⟨0, 0, 0⟩ (createRng 7)).1.landingPosition
          (simulateFlight prGravityOnly cfgCoarse 1 ⟨0, 0, 16⟩ ⟨0, -50, -70⟩
            ⟨0, 0, 0⟩ (createRng 7)).1.landingVelocity
          (simulateFlight prGravityOnly cfgCoarse 1 ⟨0, 0, 16⟩ ⟨0, -50, -70⟩
            ⟨0, 0, 0⟩ (createRng 7)).1.landingSpin
          (simulateFlight prGravityOnly cfgCoarse 1 ⟨0, 0, 16⟩ ⟨0, -50, -70⟩
            ⟨0, 0, 0⟩ (createRng 7)).2).1,
       (simulateFlight prGravityOnly cfgCoarse 1
          (simulateFlight prGravityOnly cfgCoarse 1 ⟨0, 0, 16⟩ ⟨0, -50, -70⟩
            ⟨0, 0, 0⟩ (createRng 7)).1.landingPosition
          (simulateFlight prGravityOnly cfgCoarse 1 ⟨0, 0, 16⟩ ⟨0, -50, -70⟩
            ⟨0, 0, 0⟩ (createRng 7)).1.landingVelocity
          (simulateFlight prGravityOnly cfgCoarse 1 ⟨0, 0, 16⟩ ⟨0, -50, -70⟩
            ⟨0, 0, 0⟩ (createRng 7)).1.landingSpin
          (simulateFlight prGravityOnly cfgCoarse 1 ⟨0, 0, 16⟩ ⟨0, -50, -70⟩
            ⟨0, 0, 0⟩ (createRng 7)).2).2) := by
  have hserve : simulateServe prGravityOnly cfgCoarse 1 ⟨0, 0, 16⟩
      ⟨0, -50, -70⟩ ⟨0, 0, 0⟩ (createRng 7) =
      simulateFlight prGravityOnly cfgCoarse 1 ⟨0, 0, 16⟩ ⟨0, -50, -70⟩
        ⟨0, 0, 0⟩ (createRng 7) := by
    unfold simulateServe
    rw [if_neg (by simp [flightEvalCE1]),
      if_pos (by norm_num [flightEvalCE1, signQ, startSideOf])]
  refine ⟨by simp [flightEvalCE1], ?_, hserve, ?_⟩
  · norm_num [flightEvalCE1, signQ, startSideOf]
  · rw [hserve]
    simp only [flightEvalCE1, flightEvalCE2]
    norm_num [mergedServe, Prod.mk.injEq, TrajectoryResult.mk.injEq]

/-- C3 (amended).  Serve composition: if phase 1 does not land on the table,
or lands with Y-sign DIFFERING from the server's side (i.e. the first bounce
fails to land on the server's own half), `simulateServe` returns the phase-1
result as-is; otherwise phase 2 continues from the phase-1 bounce state and
the combined result OR-merges the contact flags, keeps the higher apex, sums
the flight times, and reports phase 2's landing and net-crossed/on-table
state. -/
theorem serve_two_phase_composition (pr : FloatPrims) (cfg : PhysicsConfig)
    (gfuel : ℕ) (startPos velocity spin : Vec3) (rng : RngState) :
    ((simulateFlight pr cfg gfuel startPos velocity spin rng).1.landsOnTable
        = false →
      simulateServe pr cfg gfuel startPos velocity spin rng =
        simulateFlight pr cfg gfuel startPos velocity spin rng)
    ∧ ((simulateFlight pr cfg gfuel startPos velocity spin rng).1.landsOnTable
        = true →
       signQ (simulateFlight pr cfg gfuel startPos velocity spin rng).1.landingPosition.y
        ≠ startSideOf startPos →
      simulateServe pr cfg gfuel startPos velocity spin rng =
        simulateFlight pr cfg gfuel startPos velocity spin rng)
    ∧ ((simulateFlight pr cfg gfuel startPos velocity spin rng).1.landsOnTable
        = true →
       signQ (simulateFlight pr cfg gfuel startPos velocity spin rng).1.landingPosition.y
        = startSideOf startPos →
      simulateServe pr cfg gfuel startPos velocity spin rng =
        (mergedServe (simulateFlight pr cfg gfuel startPos velocity spin rng).1
          (simulateFlight pr cfg gfuel
            (simulateFlight pr cfg gfuel startPos velocity spin rng).1.landingPosition
            (simulateFlight pr cfg gfuel startPos velocity spin rng).1.landingVelocity
            (simulateFlight pr cfg gfuel startPos velocity spin rng).1.landingSpin
            (simulateFlight pr cfg gfuel startPos velocity spin rng).2).1,
         (simulateFlight pr cfg gfuel
            (simulateFlight pr cfg gfuel startPos velocity spin rng).1.landingPosition
            (simulateFlight pr cfg gfuel startPos velocity spin rng).1.landingVelocity
            (simulateFlight pr cfg gfuel startPos velocity spin rng).1.landingSpin
            (simulateFlight pr cfg gfuel startPos velocity spin rng).2).2)) := by
  refine ⟨fun h1 => ?_, fun h1 h2 => ?_, fun h1 h2 => ?_⟩
  · unfold simulateServe
    rw [if_pos h1]
  · unfold simulateServe
    rw [if_neg (by simp [h1]), if_pos h2]
  · unfold simulateServe
    rw [if_neg (by simp [h1]), if_neg (not_not_intro h2)]

/-- Witness for C3 (amended), merged branch: a serve whose first bounce lands
on the server's own half and whose phase 2 is appended and merged. -/
theorem serve_two_phase_composition_witness :
    simulateServe prGravityOnly cfgCoarse 1 ⟨0, 5, 10⟩ ⟨0, -20, -50⟩
      ⟨0, 0, 0⟩ (createRng 7) =
      (mergedServe (simulateFlight prGravityOnly cfgCoarse 1 ⟨0, 5, 10⟩
          ⟨0, -20, -50⟩ ⟨0, 0, 0⟩ (createRng 7)).1
        (simulateFlight prGravityOnly cfgCoarse 1
          (simulateFlight prGravityOnly cfgCoarse 1 ⟨0, 5, 10⟩ ⟨0, -20, -50⟩
            ⟨0, 0, 0⟩ (createRng 7)).1.landingPosition
          (simulateFlight prGravityOnly cfgCoarse 1 ⟨0, 5, 10⟩ ⟨0, -20, -50⟩
            ⟨0, 0, 0⟩ (createRng 7)).1.landingVelocity
          (simulateFlight prGravityOnly cfgCoarse 1 ⟨0, 5, 10⟩ ⟨0, -20, -50⟩
            ⟨0, 0, 0⟩ (createRng 7)).1.landingSpin
          (simulateFlight prGravityOnly cfgCoarse 1 ⟨0, 5, 10⟩ ⟨0, -20, -50⟩
            ⟨0, 0, 0⟩ (createRng 7)).2).1,
       (simulateFlight prGravityOnly cfgCoarse 1
          (simulateFlight prGravityOnly cfgCoarse 1 ⟨0, 5, 10⟩ ⟨0, -20, -50⟩
            ⟨0, 0, 0⟩ (createRng 7)).1.landingPosition
          (simulateFlight prGravityOnly cfgCoarse 1 ⟨0, 5, 10⟩ ⟨0, -20, -50⟩
            ⟨0, 0, 0⟩ (createRng 7)).1.landingVelocity
          (simulateFlight prGravityOnly cfgCoarse 1 ⟨0, 5, 10⟩ ⟨0, -20, -50⟩
            ⟨0, 0, 0⟩ (createRng 7)).1.landingSpin
          (simulateFlight prGravityOnly cfgCoarse 1 ⟨0, 5, 10⟩ ⟨0, -20, -50⟩
            ⟨0, 0, 0⟩ (createRng 7)).2).2) :=
  (serve_two_phase_composition prGravityOnly cfgCoarse 1 ⟨0, 5, 10⟩
    ⟨0, -20, -50⟩ ⟨0, 0, 0⟩ (createRng 7)).2.2 (by simp [flightEvalW1])
    (by norm_num [flightEvalW1, signQ, startSideOf])


/-- Counterexample for C6: with a 1 cm/s speed budget the horizontal speed
0.85 cm/s falls below the 1 cm/s floor the code applies to the flight-time
divisor (`horizontalDist / Math.max(horizontalSpeed, 1)`), so the computed
vertical component differs from the claim's closed form at flight time =
horizontal distance / horizontal speed (modelled by
`computeVelocitySpecModel`). -/
theorem velocity_solve_spec_counterexample :
    computeVelocity prSqrtTable DEFAULT_PHYSICS_CONFIG ⟨0, 50, 30⟩ ⟨0, -50⟩
      5 1 ≠
    computeVelocitySpecModel prSqrtTable DEFAULT_PHYSICS_CONFIG ⟨0, 50, 30⟩
      ⟨0, -50⟩ 5 1
    ∧ (1 : ℚ) * 0.85 < 1 := by
  constructor
  · norm_num [computeVelocity, computeVelocitySpecModel, prSqrtTable,
      DEFAULT_PHYSICS_CONFIG, abs, max_def, Vec3.mk.injEq]
  · norm_num

/-- C6 (amended).  Velocity solve: when the horizontal distance is nonzero,
the horizontal component carries 85% of the speed budget toward the target,
and the vertical component is the projectile closed form that lands at z=0
after `horizontalDist / max(horizontalSpeed, 1)` seconds (the divisor floored
at 1 cm/s); when start and target straddle Y=0 it is raised to the larger of
that and the solution reaching net height + clearance at the floored time to
the net — net clearance takes precedence over target depth. -/
theorem velocity_solve_formulas (pr : FloatPrims) (cfg : PhysicsConfig)
    (start : Vec3) (target : Vec2) (netClearance speed : ℚ)
    (hd : pr.sqrt ((target.x - start.x) * (target.x - start.x) +
      (target.y - start.y) * (target.y - start.y)) ≠ 0) :
    computeVelocity pr cfg start target netClearance speed =
      ⟨(target.x - start.x) /
          pr.sqrt ((target.x - start.x) * (target.x - start.x) +
            (target.y - start.y) * (target.y - start.y)) * (speed * 0.85),
       (target.y - start.y) /
          pr.sqrt ((target.x - start.x) * (target.x - start.x) +
            (target.y - start.y) * (target.y - start.y)) * (speed * 0.85),
       if start.y * target.y < 0 then
         max ((1/2 * cfg.gravity *
             (pr.sqrt ((target.x - start.x) * (target.x - start.x) +
               (target.y - start.y) * (target.y - start.y)) /
              max (speed * 0.85) 1) *
             (pr.sqrt ((target.x - start.x) * (target.x - start.x) +
               (target.y - start.y) * (target.y - start.y)) /
              max (speed * 0.85) 1) - start.z) /
            (pr.sqrt ((target.x - start.x) * (target.x - start.x) +
               (target.y - start.y) * (target.y - start.y)) /
             max (speed * 0.85) 1))
           ((cfg.netHeight + netClearance - start.z +
             1/2 * cfg.gravity * (|start.y| / max (speed * 0.85) 1) *
               (|start.y| / max (speed * 0.85) 1)) /
            (|start.y| / max (speed * 0.85) 1))
       else
         (1/2 * cfg.gravity *
             (pr.sqrt ((target.x - start.x) * (target.x - start.x) +
               (target.y - start.y) * (target.y - start.y)) /
              max (speed * 0.85) 1) *
             (pr.sqrt ((target.x - start.x) * (target.x - start.x) +
               (target.y - start.y) * (target.y - start.y)) /
              max (speed * 0.85) 1) - start.z) /
           (pr.sqrt ((target.x - start.x) * (target.x - start.x) +
              (target.y - start.y) * (target.y - start.y)) /
            max (speed * 0.85) 1)⟩ := by
  unfold computeVelocity
  rw [if_neg hd]

/-- Witness for C6 (amended) at a concrete solve crossing the net. -/
theorem velocity_solve_formulas_witness :
    computeVelocity prSqrtTable DEFAULT_PHYSICS_CONFIG ⟨0, 50, 30⟩ ⟨0, -50⟩
      5 1 = ⟨0, -17/20, 490497/10⟩ := by
  rw [velocity_solve_formulas prSqrtTable DEFAULT_PHYSICS_CONFIG ⟨0, 50, 30⟩
    ⟨0, -50⟩ 5 1 (by norm_num [prSqrtTable])]
  norm_num [prSqrtTable, DEFAULT_PHYSICS_CONFIG, abs, max_def]

/-- C7.  Arrival analysis: time available is distance over ball speed with a
0.5 s fallback at zero speed; the positional deficit is
`clamp(distance-to-contact / maxReach, 0, 1)` for positive footwork-scaled
max reach, saturating at 1 for zero reach and nonzero distance (0 when the
distance is zero too); the available sides are both unless the deficit
exceeds the 0.85 stretch threshold, in which case only the side on the sign
of the ball's relative X offset is returned. -/
theorem arrival_analysis_formulas (pr : FloatPrims) (cfg : PhysicsConfig)
    (ball : BallFlight) (rpos : Vec2) (caps : StrokeCapabilities) (fw : ℚ)
    (ta d mr : ℚ)
    (hta : ta = (if v3mag pr ball.velocity > 0 then
      v3mag pr (v3sub ball.landingPosition ball.startPosition) /
        v3mag pr ball.velocity else 0.5))
    (hd : d = v2dist pr rpos ⟨ball.landingPosition.x, ball.landingPosition.y⟩)
    (hmr : mr = fw / 100 * cfg.maxRecoverySpeed * ta) :
    (analyzeArrival pr cfg ball rpos caps fw).timeAvailable = ta
    ∧ (analyzeArrival pr cfg ball rpos caps fw).positionalDeficit =
      (if mr > 0 then clamp (d / mr) 0 1 else if d > 0 then 1 else 0)
    ∧ (mr = 0 → 0 < d →
      (analyzeArrival pr cfg ball rpos caps fw).positionalDeficit = 1)
    ∧ (mr = 0 → d = 0 →
      (analyzeArrival pr cfg ball rpos caps fw).positionalDeficit = 0)
    ∧ (analyzeArrival pr cfg ball rpos caps fw).availableSides =
      (if (if mr > 0 then clamp (d / mr) 0 1 else if d > 0 then 1 else 0) > 0.85
       then (if ball.landingPosition.x - rpos.x ≥ 0 then [StrokeSide.forehand]
         else [StrokeSide.backhand])
       else [StrokeSide.forehand, StrokeSide.backhand]) := by
  subst hta
  subst hmr
  subst hd
  have hdef : (analyzeArrival pr cfg ball rpos caps fw).positionalDeficit =
      (if fw / 100 * cfg.maxRecoverySpeed *
          (if v3mag pr ball.velocity > 0 then
            v3mag pr (v3sub ball.landingPosition ball.startPosition) /
              v3mag pr ball.velocity else 0.5) > 0 then
        clamp (v2dist pr rpos ⟨ball.landingPosition.x, ball.landingPosition.y⟩ /
          (fw / 100 * cfg.maxRecoverySpeed *
            (if v3mag pr ball.velocity > 0 then
              v3mag pr (v3sub ball.landingPosition ball.startPosition) /
                v3mag pr ball.velocity else 0.5))) 0 1
       else if v2dist pr rpos ⟨ball.landingPosition.x, ball.landingPosition.y⟩ > 0
        then 1 else 0) := rfl
  refine ⟨rfl, hdef, ?_, ?_, rfl⟩
  · intro h0 hdp
    rw [hdef, h0, if_neg (lt_irrefl 0), if_pos hdp]
  · intro h0 hd0
    rw [hdef, h0, hd0, if_neg (lt_irrefl 0), if_neg (lt_irrefl 0)]

/-- Witness for C7: a receiver with zero footwork has zero max reach and a
positive distance to the contact point, so the deficit saturates at 1. -/
theorem arrival_analysis_formulas_witness :
    (analyzeArrival prIdent DEFAULT_PHYSICS_CONFIG
      ⟨⟨0, 100, 30⟩, ⟨10, -300, -50⟩, ⟨0, 20, 0⟩, ⟨5, 50, 40⟩, ⟨20, -80, 0⟩,
        false, false, 0.85⟩ ⟨0, -150⟩
      ⟨⟨90, 88, 78, 80⟩, ⟨78, 80, 72, 75⟩⟩ 0).positionalDeficit = 1 :=
  (arrival_analysis_formulas prIdent DEFAULT_PHYSICS_CONFIG
    ⟨⟨0, 100, 30⟩, ⟨10, -300, -50⟩, ⟨0, 20, 0⟩, ⟨5, 50, 40⟩, ⟨20, -80, 0⟩,
      false, false, 0.85⟩ ⟨0, -150⟩
    ⟨⟨90, 88, 78, 80⟩, ⟨78, 80, 72, 75⟩⟩ 0 _ _ _ rfl rfl rfl).2.2.1
    (by norm_num) (by norm_num [v2dist, v2mag, v2sub, prIdent])

/-- Counterexample for C8: with deception effort 0 the read difficulty is 0,
but for a receiver whose read accuracy stays below 1 (spinRead 50 under a
configuration with a base read level, a spin-read contribution and an
accuracy floor) the spin-read pipeline adds Gaussian noise with positive
standard deviation, and on an RNG state carrying a cached Box–Muller spare
the perceived spin of the nonzero spin (0, 20, 0) differs from the actual
spin. -/
theorem perceived_spin_noise_counterexample :
    computeReadDifficulty 80 0 cfgSpinRead = 0
    ∧ (computePerceivedSpin prSpinProbe 1 ⟨0, 20, 0⟩
        (computeReadAccuracy 50 (computeReadDifficulty 80 0 cfgSpinRead)
          cfgSpinRead)
        ⟨1, 2, 3, 4, true, 1⟩ cfgSpinRead).1.1 ≠ ⟨0, 20, 0⟩ := by
  constructor
  · norm_num [computeReadDifficulty, clamp]
  · intro h
    have hx : (computePerceivedSpin prSpinProbe 1 ⟨0, 20, 0⟩
        (computeReadAccuracy 50 (computeReadDifficulty 80 0 cfgSpinRead)
          cfgSpinRead)
        ⟨1, 2, 3, 4, true, 1⟩ cfgSpinRead).1.1.x = 7/2 := by
      norm_num [computePerceivedSpin, computeReadAccuracy,
        computeReadDifficulty, clamp, v3mag, prSpinProbe, cfgSpinRead,
        gaussian, max_def, min_def]
    rw [h] at hx
    norm_num at hx

/-- C8 (amended).  Perfect read: for every deception attribute, deception
effort 0 gives read difficulty 0; and the perceived spin equals the actual
spin exactly (misread 0) whenever the read accuracy equals 1 — the noise
stddev `(1 - accuracy)·|spin|·spinNoiseStddev` then vanishes.  (The `sqrt 0 =
0` hypothesis is a fact of the modelled float primitive.) -/
theorem perfect_read_zero_difficulty (pr : FloatPrims)
    (cfg : PlayerEngineConfig) (senderDeception acc : ℚ) (spin : Vec3)
    (rng : RngState) (fuel : ℕ) (hacc : acc = 1) (hs0 : pr.sqrt 0 = 0) :
    computeReadDifficulty senderDeception 0 cfg = 0
    ∧ (computePerceivedSpin pr fuel spin acc rng cfg).1.1 = spin
    ∧ (computePerceivedSpin pr fuel spin acc rng cfg).1.2 = 0 := by
  subst hacc
  have hg : ∀ st : RngState, (gaussian pr fuel 0 0 st).1 = 0 := fun st =>
    gaussian_zero_stddev pr fuel 0 st
  refine ⟨by norm_num [computeReadDifficulty, clamp], ?_, ?_⟩
  · by_cases hsm : v3mag pr spin < cfg.spinMisreadEpsilon
    · simp [computePerceivedSpin, hsm]
    · simp [computePerceivedSpin, hsm, hg]
  · by_cases hsm : v3mag pr spin < cfg.spinMisreadEpsilon
    · simp [computePerceivedSpin, hsm]
    · have hsm2 : ¬ pr.sqrt (spin.x * spin.x + spin.y * spin.y + spin.z * spin.z)
          < cfg.spinMisreadEpsilon := by simpa [v3mag] using hsm
      simp [computePerceivedSpin, hsm2, hg, v3sub, v3mag, hs0, clamp]

/-- Witness for C8 (amended) at read accuracy 1 with spin (0, 20, 0). -/
theorem perfect_read_zero_difficulty_witness :
    computeReadDifficulty 80 0 cfgSpinRead = 0
    ∧ (computePerceivedSpin prIdent 1 ⟨0, 20, 0⟩ 1 (createRng 1)
        cfgSpinRead).1.1 = ⟨0, 20, 0⟩
    ∧ (computePerceivedSpin prIdent 1 ⟨0, 20, 0⟩ 1 (createRng 1)
        cfgSpinRead).1.2 = 0 :=
  perfect_read_zero_difficulty prIdent cfgSpinRead 80 1 ⟨0, 20, 0⟩
    (createRng 1) 1 rfl rfl

/-- C9.  Trajectory termination: `simulateFlight` runs the loop with the step
budget `⌈maxFlightTime / timestep⌉` (first conjunct, definitional — the fuel
caps the number of integration steps), and whenever no terminal event fires
within the budget the loop returns the last simulated state as a well-formed
result with `landsOnTable = false` instead of raising an error. -/
theorem trajectory_step_budget_timeout (pr : FloatPrims) (cfg : PhysicsConfig)
    (gfuel : ℕ) (startPos velocity spin : Vec3) (rng : RngState)
    (_hdt : 0 < cfg.timestep) :
    simulateFlight pr cfg gfuel startPos velocity spin rng =
      simulateFlightGo pr cfg (startSideOf startPos) gfuel
        ⌈cfg.maxFlightTime / cfg.timestep⌉₊
        (initFlightState startPos velocity spin rng)
    ∧ ∀ (side : ℚ) (n : ℕ) (st : FlightState),
        allContinue pr cfg side gfuel n st = true →
        simulateFlightGo pr cfg side gfuel n st =
          (timeoutResult (flightIter pr cfg side gfuel n st),
           (flightIter pr cfg side gfuel n st).rng)
        ∧ (timeoutResult (flightIter pr cfg side gfuel n st)).landsOnTable
            = false := by
  refine ⟨rfl, ?_⟩
  intro side n
  induction n with
  | zero => exact fun st _ => ⟨rfl, rfl⟩
  | succ n ih =>
    intro st h
    rw [allContinueSucc] at h
    cases hfs : flightStep pr cfg side gfuel st with
    | finished r rng2 =>
      rw [hfs] at h
      exact absurd h (by simp)
    | stepped st2 =>
      rw [hfs] at h
      have h2 := ih st2 h
      simp only [simulateFlightGoSucc, flightIterSucc, hfs]
      exact h2

/-- Witness for C9: under the capped configuration (budget 2) a ball dropped
from 10 m never reaches an event, and the loop reports the timeout fallback. -/
theorem trajectory_step_budget_timeout_witness :
    (simulateFlight prGravityOnly cfgCap2 1 ⟨0, 50, 1000⟩ ⟨0, 0, 0⟩ ⟨0, 0, 0⟩
        (createRng 3) =
      simulateFlightGo prGravityOnly cfgCap2 (startSideOf ⟨0, 50, 1000⟩) 1
        ⌈cfgCap2.maxFlightTime / cfgCap2.timestep⌉₊
        (initFlightState ⟨0, 50, 1000⟩ ⟨0, 0, 0⟩ ⟨0, 0, 0⟩ (createRng 3)))
    ∧ simulateFlightGo prGravityOnly cfgCap2 1 1 2
        (initFlightState ⟨0, 50, 1000⟩ ⟨0, 0, 0⟩ ⟨0, 0, 0⟩ (createRng 3)) =
      (timeoutResult (flightIter prGravityOnly cfgCap2 1 1 2
          (initFlightState ⟨0, 50, 1000⟩ ⟨0, 0, 0⟩ ⟨0, 0, 0⟩ (createRng 3))),
       (flightIter prGravityOnly cfgCap2 1 1 2
          (initFlightState ⟨0, 50, 1000⟩ ⟨0, 0, 0⟩ ⟨0, 0, 0⟩ (createRng 3))).rng)
    ∧ (timeoutResult (flightIter prGravityOnly cfgCap2 1 1 2
        (initFlightState ⟨0, 50, 1000⟩ ⟨0, 0, 0⟩ ⟨0, 0, 0⟩
          (createRng 3)))).landsOnTable = false := by
  have hAll : allContinue prGravityOnly cfgCap2 1 1 2
      (initFlightState ⟨0, 50, 1000⟩ ⟨0, 0, 0⟩ ⟨0, 0, 0⟩ (createRng 3)) =
      true := by
    show allContinue prGravityOnly cfgCap2 1 1 (1 + 1)
      (initFlightState ⟨0, 50, 1000⟩ ⟨0, 0, 0⟩ ⟨0, 0, 0⟩ (createRng 3)) = true
    rw [allContinueSucc, stepEvalT1]
    show allContinue prGravityOnly cfgCap2 1 1 (0 + 1)
      ⟨⟨0, 50, 99019/100⟩, ⟨0, 0, -981/10⟩, ⟨0, 0, 0⟩, ⟨0, 50, 1000⟩,
        false, false, false, 1/10, createRng 3⟩ = true
    rw [allContinueSucc, stepEvalT2]
    rfl
  have h := trajectory_step_budget_timeout prGravityOnly cfgCap2 1
    ⟨0, 50, 1000⟩ ⟨0, 0, 0⟩ ⟨0, 0, 0⟩ (createRng 3)
    (by norm_num [cfgCap2, DEFAULT_PHYSICS_CONFIG])
  exact ⟨h.1, (h.2 1 2 _ hAll).1, (h.2 1 2 _ hAll).2⟩

end TT
